import Mathlib

/-!
Verification of the pushok-hub client/bridge against its specification.

This file shallowly embeds the Python sources of the repository:

* `custom_components/pushok_hub/api/auth.py`    (class `PushokAuth`)
* `custom_components/pushok_hub/api/client.py`  (class `PushokHubClient`)
* `custom_components/pushok_hub/api/models.py`  (the dataclasses)
* `mqtt_bridge/bridge.py`                       (class `PushokMqttBridge`)
* `config/custom_components/pushok_hub/coordinator.py`

Modelling conventions:

* JSON / dynamically typed Python values are the inductive `PyVal`; Python
  floats are embedded as exact rationals (none of the verified claims
  depends on IEEE rounding).
* Python dicts are association lists with unique keys in insertion order;
  `pyDictFind` / `pyDictSet` / `pyDictPop` mirror `d[k]`, `d[k] = v` and
  `d.pop(k, None)` of CPython (replacement keeps the position of the key,
  a fresh key is appended at the end).
* Raised exceptions are the error side of `Except PyExc`; a `try/except`
  block becomes a `match` on that result.  A Lean function returning a
  plain value embeds Python code that cannot raise on the modelled paths.
* Cryptographic primitives (AES-GCM, ECDSA, `os.urandom`) are oracle
  parameters; each AES-GCM invocation is recorded as a `GcmCall` so that
  key/IV/AAD discipline is provable without modelling AES itself.
-/

/-- Dynamically typed Python/JSON value.  Numbers are exact rationals. -/
inductive PyVal where
  | none
  | bool (b : Bool)
  | num (q : ℚ)
  | str (s : String)
  | list (l : List PyVal)
  | obj (fields : List (String × PyVal))

/-- Python truthiness (`if value:`) for the embedded value type. -/
def pyTruthy : PyVal → Bool
  | PyVal.none => false
  | PyVal.bool b => b
  | PyVal.num q => decide (q ≠ 0)
  | PyVal.str s => decide (s ≠ "")
  | PyVal.list l => !l.isEmpty
  | PyVal.obj l => !l.isEmpty

/-- Embeds CPython dict lookup `d.get(k)` on an insertion-ordered table. -/
def pyDictFind {κ ν : Type} [DecidableEq κ] : List (κ × ν) → κ → Option ν
  | [], _ => Option.none
  | p :: rest, k => if p.1 = k then Option.some p.2 else pyDictFind rest k

/-- Embeds CPython dict assignment `d[k] = v`: the first entry with the key
is replaced in place, a fresh key is appended at the end. -/
def pyDictSet {κ ν : Type} [DecidableEq κ] : List (κ × ν) → κ → ν → List (κ × ν)
  | [], k, v => [(k, v)]
  | p :: rest, k, v => if p.1 = k then (k, v) :: rest else p :: pyDictSet rest k v

/-- Embeds CPython `d.pop(k, None)`: drops the entry with the key. -/
def pyDictPop {κ ν : Type} [DecidableEq κ] : List (κ × ν) → κ → List (κ × ν)
  | [], _ => []
  | p :: rest, k => if p.1 = k then rest else p :: pyDictPop rest k

/-- Embeds `d in` / `not in` key membership of a dict. -/
def pyDictContains {κ ν : Type} [DecidableEq κ] (d : List (κ × ν)) (k : κ) : Bool :=
  (pyDictFind d k).isSome

/-- Embeds `data.get(key, default)` on a string-keyed JSON object. -/
def dictGet (d : List (String × PyVal)) (k : String) (dflt : PyVal) : PyVal :=
  match pyDictFind d k with
  | Option.some v => v
  | Option.none => dflt

/-- Fields of a JSON object value; non-objects give the empty table. -/
def objFieldsOf : PyVal → List (String × PyVal)
  | PyVal.obj l => l
  | _ => []

/-- Elements of a JSON array value; non-arrays give the empty list. -/
def listOf : PyVal → List PyVal
  | PyVal.list l => l
  | _ => []

/-- Exceptions raised by the embedded code.  `commandError`/`commandTimeout`
keep the `CommandError` payloads structurally (code/message resp. the
timed-out method) instead of the formatted message string.  `outOfFuel` is
a modelling artefact marking exhausted recursion fuel, not a Python
exception. -/
inductive PyExc where
  | typeError
  | valueError
  | indexError
  | zeroDivisionError
  | invalidTag
  | runtimeError (m : String)
  | connectionError (m : String)
  | commandError (code msg : PyVal)
  | commandTimeout (method : String)
  | authenticationError
  | outOfFuel

/-- Embeds Python `float(x)` on the values a conversion formula can hold:
numbers convert, booleans convert to 0/1, strings raise `ValueError`
(numeric strings are outside the adapters' token alphabet and are not
modelled), `None` and containers raise `TypeError`. -/
def pyFloat : PyVal → Except PyExc ℚ
  | PyVal.num q => Except.ok q
  | PyVal.bool b => Except.ok (if b then 1 else 0)
  | PyVal.str _ => Except.error PyExc.valueError
  | _ => Except.error PyExc.typeError

/-- Embeds `value + operand` where `operand` is a Python float. -/
def pyAddFloat : PyVal → ℚ → Except PyExc PyVal
  | PyVal.num v, q => Except.ok (PyVal.num (v + q))
  | PyVal.bool b, q => Except.ok (PyVal.num ((if b then 1 else 0) + q))
  | _, _ => Except.error PyExc.typeError

/-- Embeds `value - operand` where `operand` is a Python float. -/
def pySubFloat : PyVal → ℚ → Except PyExc PyVal
  | PyVal.num v, q => Except.ok (PyVal.num (v - q))
  | PyVal.bool b, q => Except.ok (PyVal.num ((if b then 1 else 0) - q))
  | _, _ => Except.error PyExc.typeError

/-- Embeds `value * operand` where `operand` is a Python float. -/
def pyMulFloat : PyVal → ℚ → Except PyExc PyVal
  | PyVal.num v, q => Except.ok (PyVal.num (v * q))
  | PyVal.bool b, q => Except.ok (PyVal.num ((if b then 1 else 0) * q))
  | _, _ => Except.error PyExc.typeError

/-- Embeds `value / operand` where `operand` is a Python float; a zero
divisor raises `ZeroDivisionError`. -/
def pyDivFloat : PyVal → ℚ → Except PyExc PyVal
  | PyVal.num v, q =>
      if q = 0 then Except.error PyExc.zeroDivisionError else Except.ok (PyVal.num (v / q))
  | PyVal.bool b, q =>
      if q = 0 then Except.error PyExc.zeroDivisionError
      else Except.ok (PyVal.num ((if b then 1 else 0) / q))
  | _, _ => Except.error PyExc.typeError

/-- Embeds `PushokMqttBridge._apply_conversion` (`mqtt_bridge/bridge.py`).
The source reads only `formula[1]` (through `float`) and `formula[2]`
(compared against the four operator strings); anything shorter than three
tokens returns the input unchanged, as does an unrecognised operator.  The
`except (TypeError, ValueError, IndexError)` clause maps those three
exceptions back to the input; `ZeroDivisionError` is not in the tuple and
propagates.  In the `'*'` branch the source's `int(result) if
isinstance(operand, int) else result` always takes the `else` arm because
`operand = float(formula[1])` is a float, so the embedding returns the
product unchanged. -/
def applyConversion (value : PyVal) (formula : List PyVal) : Except PyExc PyVal :=
  if formula.length < 3 then Except.ok value
  else
    let attempt : Except PyExc PyVal :=
      match pyFloat (formula.getD 1 PyVal.none) with
      | Except.error e => Except.error e
      | Except.ok operand =>
        match formula.getD 2 PyVal.none with
        | PyVal.str "+" => pyAddFloat value operand
        | PyVal.str "-" => pySubFloat value operand
        | PyVal.str "*" => pyMulFloat value operand
        | PyVal.str "/" => pyDivFloat value operand
        | _ => Except.ok value
    match attempt with
    | Except.error PyExc.typeError => Except.ok value
    | Except.error PyExc.valueError => Except.ok value
    | Except.error PyExc.indexError => Except.ok value
    | other => other

/-- Modelled from the spec: one step of the postfix stack machine of
section 4.4 — `"self"` pushes the input, a numeric literal pushes itself,
an operator pops the right-hand operand first, then the left-hand operand,
and pushes left-op-right, with `x / 0` yielding `0`; underflow and foreign
tokens are undefined (caller error). -/
def rpnStepSpec (input : ℚ) (stack : List ℚ) : PyVal → Option (List ℚ)
  | PyVal.str "self" => Option.some (input :: stack)
  | PyVal.num q => Option.some (q :: stack)
  | PyVal.str "+" =>
      match stack with
      | b :: a :: rest => Option.some ((a + b) :: rest)
      | _ => Option.none
  | PyVal.str "-" =>
      match stack with
      | b :: a :: rest => Option.some ((a - b) :: rest)
      | _ => Option.none
  | PyVal.str "*" =>
      match stack with
      | b :: a :: rest => Option.some ((a * b) :: rest)
      | _ => Option.none
  | PyVal.str "/" =>
      match stack with
      | b :: a :: rest => Option.some ((if b = 0 then 0 else a / b) :: rest)
      | _ => Option.none
  | _ => Option.none

/-- Modelled from the spec: evaluation of a conversion program under the
postfix stack semantics of section 4.4.  An empty program returns the
input unchanged; otherwise the program runs on an empty stack and the
result is the final top of stack. -/
def rpnEvalSpec (prog : List PyVal) (input : ℚ) : Option ℚ :=
  match prog with
  | [] => Option.some input
  | _ =>
    match prog.foldlM (rpnStepSpec input) [] with
    | Option.some (r :: _) => Option.some r
    | _ => Option.none

/-- Value of one hexadecimal digit character, both cases accepted;
embeds the digit handling of Python's `int(hex_key, 16)` restricted to
plain hex-digit strings (prefixes, underscores and surrounding whitespace
are outside the persisted-identity format). -/
def hexVal (c : Char) : Option Nat :=
  if 48 ≤ c.toNat ∧ c.toNat ≤ 57 then Option.some (c.toNat - 48)
  else if 97 ≤ c.toNat ∧ c.toNat ≤ 102 then Option.some (c.toNat - 97 + 10)
  else if 65 ≤ c.toNat ∧ c.toNat ≤ 70 then Option.some (c.toNat - 65 + 10)
  else Option.none

/-- Lower-case hexadecimal digit character, as produced by `bytes.hex()`. -/
def hexCharOf (v : Nat) : Char :=
  if v < 10 then Char.ofNat (48 + v) else Char.ofNat (87 + v)

/-- ASCII lower-casing of one character (`str.lower` on the identity's
hex digits, which are all ASCII). -/
def lowerChar (c : Char) : Char :=
  if 65 ≤ c.toNat ∧ c.toNat ≤ 90 then Char.ofNat (c.toNat + 32) else c

/-- Numeric value of a hex-digit string (most significant digit first). -/
def hexDigitsVal (s : List Char) : Nat :=
  s.foldl (fun a c => a * 16 + (hexVal c).getD 0) 0

/-- Embeds `int(s, 16)` on plain hex-digit strings: the empty string and
any non-hex character raise `ValueError` (here: `none`). -/
def parseHexNat (s : List Char) : Option Nat :=
  if s ≠ [] ∧ s.all (fun c => (hexVal c).isSome) then Option.some (hexDigitsVal s)
  else Option.none

/-- Embeds `n.to_bytes(len, "big").hex()`: the fixed-width lower-case
hexadecimal rendering of `n`, most significant digit first. -/
def natToHexFixed : Nat → Nat → List Char
  | 0, _ => []
  | l + 1, n => natToHexFixed l (n / 16) ++ [hexCharOf (n % 16)]

theorem hexVal_lt (c : Char) (v : Nat) (h : hexVal c = Option.some v) : v < 16 := by
  unfold hexVal at h
  split_ifs at h <;> simp_all <;> omega

theorem hexCharOf_hexVal (c : Char) (v : Nat) (h : hexVal c = Option.some v) :
    hexCharOf v = lowerChar c := by
  unfold hexVal at h
  unfold hexCharOf lowerChar
  split_ifs at h with h1 h2 h3
  · cases h
    rw [if_pos (by omega), if_neg (by omega)]
    have e : 48 + (c.toNat - 48) = c.toNat := by omega
    rw [e, Char.ofNat_toNat]
  · cases h
    rw [if_neg (by omega), if_neg (by omega)]
    have e : 87 + (c.toNat - 97 + 10) = c.toNat := by omega
    rw [e, Char.ofNat_toNat]
  · cases h
    rw [if_neg (by omega), if_pos (by omega)]
    congr 1
    omega

theorem hexDigitsVal_concat (s : List Char) (c : Char) :
    hexDigitsVal (s ++ [c]) = hexDigitsVal s * 16 + (hexVal c).getD 0 := by
  unfold hexDigitsVal
  rw [List.foldl_append]
  rfl

theorem hexDigitsVal_lt (s : List Char) (h : ∀ c ∈ s, (hexVal c).isSome) :
    hexDigitsVal s < 16 ^ s.length := by
  induction s using List.reverseRecOn with
  | nil => simp [hexDigitsVal]
  | append_singleton s c ih =>
    rw [hexDigitsVal_concat, List.length_append]
    obtain ⟨v, hv⟩ := Option.isSome_iff_exists.mp (h c (by simp))
    have hvlt : v < 16 := hexVal_lt c v hv
    have hs := ih (fun x hx => h x (by simp [hx]))
    rw [hv]
    simp only [Option.getD_some, List.length_singleton, pow_succ]
    omega

theorem natToHexFixed_hexDigitsVal (s : List Char) (h : ∀ c ∈ s, (hexVal c).isSome) :
    natToHexFixed s.length (hexDigitsVal s) = s.map lowerChar := by
  induction s using List.reverseRecOn with
  | nil => rfl
  | append_singleton s c ih =>
    obtain ⟨v, hv⟩ := Option.isSome_iff_exists.mp (h c (by simp))
    have hvlt : v < 16 := hexVal_lt c v hv
    rw [List.length_append, hexDigitsVal_concat, hv]
    simp only [Option.getD_some, List.length_singleton]
    show natToHexFixed (s.length + 1) (hexDigitsVal s * 16 + v) = _
    simp only [natToHexFixed]
    have e1 : (hexDigitsVal s * 16 + v) / 16 = hexDigitsVal s := by omega
    have e2 : (hexDigitsVal s * 16 + v) % 16 = v := by omega
    rw [e1, e2, ih (fun x hx => h x (by simp [hx])), hexCharOf_hexVal c v hv,
      List.map_append]
    rfl

/-- Character of one 6-bit value in the standard base64 alphabet. -/
def b64Char (v : Nat) : Char :=
  if v < 26 then Char.ofNat (65 + v)
  else if v < 52 then Char.ofNat (97 + (v - 26))
  else if v < 62 then Char.ofNat (48 + (v - 52))
  else if v = 62 then '+' else '/'

/-- Value of one standard-alphabet base64 character. -/
def b64Val (c : Char) : Option Nat :=
  if 65 ≤ c.toNat ∧ c.toNat ≤ 90 then Option.some (c.toNat - 65)
  else if 97 ≤ c.toNat ∧ c.toNat ≤ 122 then Option.some (c.toNat - 97 + 26)
  else if 48 ≤ c.toNat ∧ c.toNat ≤ 57 then Option.some (c.toNat - 48 + 52)
  else if c = '+' then Option.some 62
  else if c = '/' then Option.some 63
  else Option.none

/-- Embeds `base64.b64encode` (standard alphabet, canonical padding). -/
def b64encode : List Nat → List Char
  | a :: b :: c :: rest =>
      b64Char (a / 4) :: b64Char (a % 4 * 16 + b / 16) ::
        b64Char (b % 16 * 4 + c / 64) :: b64Char (c % 64) :: b64encode rest
  | [a, b] => [b64Char (a / 4), b64Char (a % 4 * 16 + b / 16), b64Char (b % 16 * 4), '=']
  | [a] => [b64Char (a / 4), b64Char (a % 4 * 16), '=', '=']
  | [] => []

/-- Embeds `base64.b64decode` on canonically padded standard-alphabet
input (the only form the persisted identity and the hub's payloads use). -/
def b64decode : List Char → List Nat
  | c1 :: c2 :: c3 :: c4 :: rest =>
      let v1 := (b64Val c1).getD 0
      let v2 := (b64Val c2).getD 0
      if c3 = '=' then [v1 * 4 + v2 / 16]
      else
        let v3 := (b64Val c3).getD 0
        if c4 = '=' then [v1 * 4 + v2 / 16, v2 % 16 * 16 + v3 / 4]
        else
          (v1 * 4 + v2 / 16) :: (v2 % 16 * 16 + v3 / 4) ::
            (v3 % 4 * 64 + (b64Val c4).getD 0) :: b64decode rest
  | _ => []

theorem b64Val_b64Char : ∀ v < 64, b64Val (b64Char v) = Option.some v := by decide

theorem b64Char_ne_pad : ∀ v < 64, b64Char v ≠ '=' := by decide

theorem b64decode_b64encode : ∀ b : List Nat, (∀ x ∈ b, x < 256) →
    b64decode (b64encode b) = b
  | [], _ => rfl
  | [a], h => by
      have ha : a < 256 := h a (by simp)
      have e1 : b64Val (b64Char (a / 4)) = Option.some (a / 4) :=
        b64Val_b64Char _ (by omega)
      have e2 : b64Val (b64Char (a % 4 * 16)) = Option.some (a % 4 * 16) :=
        b64Val_b64Char _ (by omega)
      simp only [b64encode, b64decode, if_true]
      simp only [e1, e2, Option.getD_some]
      have e : a / 4 * 4 + a % 4 * 16 / 16 = a := by omega
      rw [e]
  | [a, b], h => by
      have ha : a < 256 := h a (by simp)
      have hb : b < 256 := h b (by simp)
      have e1 : b64Val (b64Char (a / 4)) = Option.some (a / 4) :=
        b64Val_b64Char _ (by omega)
      have e2 : b64Val (b64Char (a % 4 * 16 + b / 16)) = Option.some (a % 4 * 16 + b / 16) :=
        b64Val_b64Char _ (by omega)
      have e3 : b64Val (b64Char (b % 16 * 4)) = Option.some (b % 16 * 4) :=
        b64Val_b64Char _ (by omega)
      simp only [b64encode, b64decode]
      rw [if_neg (b64Char_ne_pad _ (by omega))]
      simp only [if_true, e1, e2, e3, Option.getD_some]
      have ea : a / 4 * 4 + (a % 4 * 16 + b / 16) / 16 = a := by omega
      have eb : (a % 4 * 16 + b / 16) % 16 * 16 + b % 16 * 4 / 4 = b := by omega
      rw [ea, eb]
  | a :: b :: c :: rest, h => by
      have ha : a < 256 := h a (by simp)
      have hb : b < 256 := h b (by simp)
      have hc : c < 256 := h c (by simp)
      have e1 : b64Val (b64Char (a / 4)) = Option.some (a / 4) :=
        b64Val_b64Char _ (by omega)
      have e2 : b64Val (b64Char (a % 4 * 16 + b / 16)) = Option.some (a % 4 * 16 + b / 16) :=
        b64Val_b64Char _ (by omega)
      have e3 : b64Val (b64Char (b % 16 * 4 + c / 64)) = Option.some (b % 16 * 4 + c / 64) :=
        b64Val_b64Char _ (by omega)
      have e4 : b64Val (b64Char (c % 64)) = Option.some (c % 64) :=
        b64Val_b64Char _ (by omega)
      simp only [b64encode, b64decode]
      rw [if_neg (b64Char_ne_pad _ (by omega)), if_neg (b64Char_ne_pad _ (by omega))]
      simp only [e1, e2, e3, e4, Option.getD_some]
      have ea : a / 4 * 4 + (a % 4 * 16 + b / 16) / 16 = a := by omega
      have eb : (a % 4 * 16 + b / 16) % 16 * 16 + (b % 16 * 4 + c / 64) / 4 = b := by omega
      have ec : (b % 16 * 4 + c / 64) % 4 * 64 + c % 64 = c := by omega
      rw [ea, eb, ec, b64decode_b64encode rest (fun x hx => h x (by simp [hx]))]

/-- Truthiness of an optional Python `bytes` value (`if not self._x`):
falsy when `None` or empty. -/
def bytesTruthy : Option (List Nat) → Bool
  | Option.none => false
  | Option.some b => !b.isEmpty

/-- Record of one AES-GCM invocation: direction, the key the cipher was
constructed with, and the `iv`, `data` and `aad` arguments. -/
structure GcmCall where
  isEncrypt : Bool
  key : List Nat
  iv : List Nat
  data : List Nat
  aad : Option (List Nat)

/-- Per-connection handshake state of `PushokAuth` (`api/auth.py`):
the raw ECDH shared key cached by `set_gateway_public_key`, and the two
nonces. -/
structure PushokAuthSession where
  shared_key : Option (List Nat)
  dev_nonce : Option (List Nat)
  user_nonce : Option (List Nat)

/-- Embeds `PushokAuth.decrypt_challenge`: base64-decode the ciphertext
and AES-GCM-decrypt it under the raw shared key with a twelve-zero-byte IV
and no associated data; the plaintext is stored as `dev_nonce` and
returned.  `gcmDecrypt key iv data aad` is the primitive oracle (`none`
embeds the `InvalidTag` exception).  The second component lists the
AES-GCM invocations made. -/
def decrypt_challenge
    (gcmDecrypt : List Nat → List Nat → List Nat → Option (List Nat) → Option (List Nat))
    (st : PushokAuthSession) (encrypted_nonce_b64 : List Char) :
    Except PyExc (List Nat × PushokAuthSession) × List GcmCall :=
  if bytesTruthy st.shared_key = false then
    (Except.error (PyExc.runtimeError "Gateway public key not set"), [])
  else
    let sk := st.shared_key.getD []
    let encrypted := b64decode encrypted_nonce_b64
    let iv := List.replicate 12 0
    match gcmDecrypt sk iv encrypted Option.none with
    | Option.none => (Except.error PyExc.invalidTag, [⟨false, sk, iv, encrypted, Option.none⟩])
    | Option.some dn =>
        (Except.ok (dn, { st with dev_nonce := Option.some dn }),
          [⟨false, sk, iv, encrypted, Option.none⟩])

/-- Embeds `PushokAuth.create_auth_payload`: draw `user_nonce` (the
`os.urandom(32)` result is the `rand` parameter), sign
`dev_nonce ++ user_nonce` with the ECDSA oracle `sign`, form the plaintext
`signature ++ user_nonce`, AES-GCM-encrypt it with IV equal to the first
12 bytes of `dev_nonce` and no associated data, and return the base64 of
the ciphertext. -/
def create_auth_payload
    (gcmEncrypt : List Nat → List Nat → List Nat → Option (List Nat) → List Nat)
    (sign : List Nat → List Nat) (rand : List Nat) (st : PushokAuthSession) :
    Except PyExc (List Char × PushokAuthSession) × List GcmCall :=
  if bytesTruthy st.shared_key = false ∨ bytesTruthy st.dev_nonce = false then
    (Except.error (PyExc.runtimeError "Challenge not completed"), [])
  else
    let sk := st.shared_key.getD []
    let dn := st.dev_nonce.getD []
    let user_nonce := rand
    let message := dn ++ user_nonce
    let signature := sign message
    let payload := signature ++ user_nonce
    let iv := dn.take 12
    let encrypted := gcmEncrypt sk iv payload Option.none
    (Except.ok (b64encode encrypted, { st with user_nonce := Option.some user_nonce }),
      [⟨true, sk, iv, payload, Option.none⟩])

/-- Embeds `PushokAuth.verify_gateway_signature`: base64-decode the input,
AES-GCM-decrypt it under the same shared key with IV `dev_nonce[0:12]` and
no associated data, and verify the plaintext as a DER ECDSA signature over
the saved `user_nonce` (the oracle `verify sig msg` embeds
`gateway_public_key.verify`).  Every exception inside the `try` block —
a bad tag, a missing `user_nonce`, or a bad signature — returns `false`.
The gateway-key prerequisite is part of the guard because the source
checks `self._gateway_public_key` there; the embedding carries only its
derived `shared_key`. -/
def verify_gateway_signature
    (gcmDecrypt : List Nat → List Nat → List Nat → Option (List Nat) → Option (List Nat))
    (verify : List Nat → List Nat → Bool) (st : PushokAuthSession)
    (encrypted_signature_b64 : List Char) : Except PyExc Bool × List GcmCall :=
  if bytesTruthy st.shared_key = false ∨ bytesTruthy st.dev_nonce = false then
    (Except.error (PyExc.runtimeError "Authentication not completed"), [])
  else
    let sk := st.shared_key.getD []
    let dn := st.dev_nonce.getD []
    let encrypted := b64decode encrypted_signature_b64
    let iv := dn.take 12
    match gcmDecrypt sk iv encrypted Option.none with
    | Option.none => (Except.ok false, [⟨false, sk, iv, encrypted, Option.none⟩])
    | Option.some decrypted =>
        if bytesTruthy st.user_nonce = false then
          (Except.ok false, [⟨false, sk, iv, encrypted, Option.none⟩])
        else
          (Except.ok (verify decrypted (st.user_nonce.getD [])),
            [⟨false, sk, iv, encrypted, Option.none⟩])

/-- Order of the P-256 (SECP256R1) base point; `ec.derive_private_key`
accepts exactly the scalars `1 ≤ d < p256Order`. -/
def p256Order : Nat :=
  0xffffffff00000000ffffffffffffffffbce6faada7179e84f3b9cac2fc632551

/-- Embeds `PushokAuth._load_private_key`: `int(hex_key, 16)` followed by
`ec.derive_private_key`, which validates the scalar range. -/
def load_private_key (hex_key : List Char) : Except PyExc Nat :=
  match parseHexNat hex_key with
  | Option.none => Except.error PyExc.valueError
  | Option.some d =>
      if 0 < d ∧ d < p256Order then Except.ok d else Except.error PyExc.valueError

/-- Persistent identity of `PushokAuth`: the P-256 private scalar and the
raw 32-byte user id. -/
structure PushokAuthIdent where
  private_value : Nat
  user_id : List Nat

/-- Embeds `PushokAuth.__init__` on the stored-identity path (both
arguments provided and nonempty, hence truthy): the private key is loaded
from hex and the user id base64-decoded.  The generation branches draw
fresh randomness and are outside the round-trip claim. -/
def pushokAuthStored (private_key_hex : List Char) (user_id : List Char) :
    Except PyExc PushokAuthIdent :=
  match load_private_key private_key_hex with
  | Except.error e => Except.error e
  | Except.ok pv => Except.ok ⟨pv, b64decode user_id⟩

/-- Embeds the `PushokAuth.private_key_hex` property:
`private_value.to_bytes(32, "big").hex()`. -/
def PushokAuthIdent.private_key_hex (a : PushokAuthIdent) : List Char :=
  natToHexFixed 64 a.private_value

/-- Embeds the `PushokAuth.user_id_b64` property:
`base64.b64encode(self._user_id).decode()`. -/
def PushokAuthIdent.user_id_b64 (a : PushokAuthIdent) : List Char :=
  b64encode a.user_id

/-- State of `PushokHubClient` relevant to command multiplexing: the
websocket flag, the monotone command-id counter and the pending-command
table mapping an id to its future (`none` = unresolved, `some r` =
resolved with response `r`). -/
structure ClientState where
  ws : Bool
  command_id : Nat
  pending : List (Nat × Option (List (String × PyVal)))

/-- Embeds `PushokHubClient._send_command`.  The `outcome` parameter is
what `asyncio.wait_for(future, timeout)` observes: `some response` when
the receive loop resolved the future within the window, `none` for a
timeout.  The slot for the allocated id is registered before the send and
popped in the `finally` block on every path.  An `error` key in the
response raises `CommandError` carrying the error code and the `msg`
field (defaulted to `""`); a timeout raises the timeout-specific
`CommandError` for the method. -/
def send_command (st : ClientState) (method : String)
    (outcome : Option (List (String × PyVal))) :
    Except PyExc (List (String × PyVal)) × ClientState :=
  if st.ws = false then (Except.error (PyExc.connectionError "Not connected"), st)
  else
    let cmd_id := st.command_id + 1
    let pending1 := pyDictSet st.pending cmd_id Option.none
    match outcome with
    | Option.none =>
        (Except.error (PyExc.commandTimeout method),
          { st with command_id := cmd_id, pending := pyDictPop pending1 cmd_id })
    | Option.some response =>
        let result : Except PyExc (List (String × PyVal)) :=
          if pyDictContains response "error" then
            Except.error (PyExc.commandError (dictGet response "error" PyVal.none)
              (dictGet response "msg" (PyVal.str "")))
          else Except.ok response
        (result, { st with command_id := cmd_id, pending := pyDictPop pending1 cmd_id })

/-- Embeds the response-dispatch part of `PushokHubClient._receive_loop`
for one JSON text frame: a `broadcast` envelope goes to the callback and
never touches the pending table; otherwise a frame whose `id` is truthy
and matches a pending slot resolves that slot's future if it is not yet
done.  Frames with a falsy, missing, non-numeric or unmatched id leave
the state unchanged (ids of pending commands are ints, so only a numeric
id can match). -/
def receive_handle (st : ClientState) (data : List (String × PyVal)) : ClientState :=
  if pyDictContains data "broadcast" then st
  else
    match dictGet data "id" PyVal.none with
    | PyVal.num q =>
        if q ≠ 0 then
          match st.pending.find? (fun p => decide ((p.1 : ℚ) = q)) with
          | Option.some (k, Option.none) => { st with pending := pyDictSet st.pending k (Option.some data) }
          | Option.some (_, Option.some _) => st
          | Option.none => st
        else st
    | _ => st

/-- Embeds the dataclass `PropertyValue` (`api/models.py`).  The fields
hold raw JSON values, exactly as `from_dict` stores them. -/
structure PropertyValue where
  value : PyVal
  time : PyVal
  ack : PyVal

/-- Embeds `PropertyValue.from_dict`. -/
def PropertyValue.from_dict (d : List (String × PyVal)) : PropertyValue :=
  ⟨dictGet d "value" PyVal.none, dictGet d "time" PyVal.none, dictGet d "ack" (PyVal.bool false)⟩

/-- Embeds the dataclass `DeviceDescription` (`api/models.py`).  `driver`
keeps its annotated type `str | None`; the metadata fields that broadcast
handlers overwrite with raw JSON (`lqi`, `last_seen`, `warning`, …) are
kept as `PyVal` because the handlers assign the wire values unchecked. -/
structure DeviceDescription where
  id : String
  manufacturer : PyVal
  model : PyVal
  network_id : PyVal
  driver : Option String
  last_seen : PyVal
  lqi : PyVal
  warning : PyVal
  has_description : PyVal
  attr_crc : PyVal
  adapter_crc : PyVal
  error : PyVal

/-- Embeds the dataclass `DeviceAttributes` (`api/models.py`). -/
structure DeviceAttributes where
  name : Option String
  tags : List PyVal
  params_visibility : List (Nat × PyVal)

/-- Embeds the dataclass `DeviceState` (`api/models.py`). -/
structure DeviceState where
  device_id : String
  properties : List (Nat × PropertyValue)
  adapter_crc : PyVal

/-- Embeds the dataclass `AdapterParam` (`api/models.py`).  `convert` is
the raw optional JSON object holding the `conversion` / `inversion`
programs. -/
structure AdapterParam where
  address : Nat
  access : String
  param_type : String
  name : Option String
  description : Option String
  min_value : PyVal
  max_value : PyVal
  labels : List (String × PyVal)
  view_params : List (String × PyVal)
  convert : PyVal
  ya : PyVal

/-- Embeds the dataclass `DeviceAdapter` (`api/models.py`). -/
structure DeviceAdapter where
  driver : String
  crc : PyVal
  description : Option String
  device_type : Option String
  url : Option String
  params : List AdapterParam
  ya_device_type : PyVal

/-- Embeds `DeviceAdapter.get_param_by_name`: first parameter whose name
equals the query (a `None` name never matches a string). -/
def DeviceAdapter.get_param_by_name (adapter : DeviceAdapter) (name : String) :
    Option AdapterParam :=
  adapter.params.find? (fun p => p.name = Option.some name)

/-- Embeds `DeviceAdapter.get_param_by_address`. -/
def DeviceAdapter.get_param_by_address (adapter : DeviceAdapter) (address : Nat) :
    Option AdapterParam :=
  adapter.params.find? (fun p => p.address = address)

/-- Embeds `str.isdigit` on the ASCII field-id keys broadcast payloads
use. -/
def isDigitKey (s : String) : Bool :=
  s ≠ "" && s.toList.all (fun c => 48 ≤ c.toNat && c.toNat ≤ 57)

/-- Embeds `int(key)` on a decimal digit string. -/
def decKeyNat (s : String) : Nat :=
  s.toList.foldl (fun a c => a * 10 + (c.toNat - 48)) 0

/-- Recognises a JSON object (`isinstance(value, dict)`). -/
def isObjVal : PyVal → Bool
  | PyVal.obj _ => true
  | _ => false

/-- Embeds the property-merge loop shared verbatim by
`PushokHubCoordinator._handle_object_update` and
`PushokMqttBridge._handle_object_update`: every props entry whose key is a
digit string and whose value is an object replaces/inserts that field id;
all other entries leave the properties map alone. -/
def update_state_props : List (String × PyVal) → DeviceState → DeviceState
  | [], s => s
  | kv :: rest, s =>
      update_state_props rest
        (if isDigitKey kv.1 && isObjVal kv.2 then
          { s with properties :=
              pyDictSet s.properties (decKeyNat kv.1) (PropertyValue.from_dict (objFieldsOf kv.2)) }
        else s)

/-- Embeds the description-metadata merge of
`PushokHubCoordinator._handle_object_update`: `lqi`, `lse` and `warn` are
copied from `props` onto the device exactly when present. -/
def update_description_props (props : List (String × PyVal)) (dev : DeviceDescription) :
    DeviceDescription :=
  let dev1 := if pyDictContains props "lqi" then
    { dev with lqi := dictGet props "lqi" PyVal.none } else dev
  let dev2 := if pyDictContains props "lse" then
    { dev1 with last_seen := dictGet props "lse" PyVal.none } else dev1
  if pyDictContains props "warn" then
    { dev2 with warning := dictGet props "warn" PyVal.none } else dev2

/-- Embeds the state part of `PushokHubCoordinator._handle_object_update`
for one device: the sparse per-field merge followed by the `adptr-crc`
copy when that key is present. -/
def merged_state (props : List (String × PyVal)) (s : DeviceState) : DeviceState :=
  let state1 := update_state_props props s
  if pyDictContains props "adptr-crc" then
    { state1 with adapter_crc := dictGet props "adptr-crc" PyVal.none }
  else state1

/-- State of `PushokHubCoordinator` touched by broadcast updates: the
device registry and the coordinator's per-device state data. -/
structure CoordState where
  devices : List (String × DeviceDescription)
  data : List (String × DeviceState)

/-- Embeds `PushokHubCoordinator._handle_object_update`
(`coordinator.py`): a falsy or unknown device id returns with no change;
for a known device the description fields `lqi` / `lse` / `warn` are
overwritten only when present in `props`, the per-field properties are
sparsely merged (a state object is created if the device had none), and
`adptr-crc` is copied when present.  A non-string id never matches the
string-keyed registry and is likewise ignored. -/
def coordinator_handle_object_update (st : CoordState) (data : List (String × PyVal)) :
    CoordState :=
  let device_id := dictGet data "id" PyVal.none
  let props := objFieldsOf (dictGet data "props" (PyVal.obj []))
  if pyTruthy device_id = false then st
  else
    match device_id with
    | PyVal.str did =>
      match pyDictFind st.devices did with
      | Option.none => st
      | Option.some dev =>
        let devices1 := pyDictSet st.devices did (update_description_props props dev)
        let current_state :=
          match pyDictFind st.data did with
          | Option.some s => s
          | Option.none => ⟨did, [], PyVal.none⟩
        ⟨devices1, pyDictSet st.data did (merged_state props current_state)⟩
    | _ => st

/-- State of `PushokMqttBridge` touched by the modelled paths: registries
keyed by device id, the adapter cache keyed by driver, and the configured
friendly-name prefixing string (`config.mqtt.device_prefix`). -/
structure BridgeState where
  devices : List (String × DeviceDescription)
  attributes : List (String × DeviceAttributes)
  adapters : List (String × DeviceAdapter)
  states : List (String × DeviceState)
  device_pref : String

/-- Embeds `PushokMqttBridge._handle_object_update` (`bridge.py`): a falsy
or unknown device id returns unchanged; for a known device with a loaded
state the props are sparsely merged into it (a device without a state is
only re-published, its registries unchanged).  The MQTT publish at the end
is an external effect and not part of the state. -/
def bridge_handle_object_update (st : BridgeState) (data : List (String × PyVal)) :
    BridgeState :=
  let device_id := dictGet data "id" PyVal.none
  let props := objFieldsOf (dictGet data "props" (PyVal.obj []))
  if pyTruthy device_id = false then st
  else
    match device_id with
    | PyVal.str did =>
      match pyDictFind st.devices did with
      | Option.none => st
      | Option.some _ =>
        match pyDictFind st.states did with
        | Option.none => st
        | Option.some state =>
            { st with states := pyDictSet st.states did (update_state_props props state) }
    | _ => st

/-- Embeds `PushokMqttBridge._get_friendly_name`: the stored attribute
name when present and truthy, else the device id, with the configured
prefixing string prepended when requested and itself truthy. -/
def get_friendly_name (st : BridgeState) (device : DeviceDescription) (with_pref : Bool) :
    String :=
  let base_name :=
    match pyDictFind st.attributes device.id with
    | Option.some attrs =>
        match attrs.name with
        | Option.some n => if n ≠ "" then n else device.id
        | Option.none => device.id
    | Option.none => device.id
  if with_pref ∧ st.device_pref ≠ "" then st.device_pref ++ base_name else base_name

/-- Embeds `PushokMqttBridge._find_device_by_name`: first device whose
prefixed friendly name, bare friendly name, or id equals the query. -/
def find_device_by_name (st : BridgeState) (friendly_name : String) :
    Option DeviceDescription :=
  (st.devices.find? (fun p =>
    decide (get_friendly_name st p.2 true = friendly_name) ||
    decide (get_friendly_name st p.2 false = friendly_name) ||
    decide (p.1 = friendly_name))).map (fun p => p.2)

/-- Embeds `PushokMqttBridge._get_param_by_name`: exact adapter lookup
first, then a lower-cased comparison over the parameter list; `None`
adapters and unresolved names give `None`. -/
def bridge_get_param_by_name (adapter : Option DeviceAdapter) (name : String) :
    Option AdapterParam :=
  match adapter with
  | Option.none => Option.none
  | Option.some ad =>
    match ad.get_param_by_name name with
    | Option.some p => Option.some p
    | Option.none =>
        ad.params.find? (fun p =>
          match p.name with
          | Option.some n => decide (n ≠ "" ∧ n.toLower = name.toLower)
          | Option.none => false)

/-- Embeds `PushokMqttBridge._convert_value_for_hub`: a string value with
a nonempty label table is mapped through the table (exact key first, then
the first case-insensitive match, else left unchanged); afterwards the
`inversion` program is applied when the parameter declares one.  The
`ZeroDivisionError` a zero divisor raises propagates to the caller. -/
def convert_value_for_hub (param : AdapterParam) (value : PyVal) : Except PyExc PyVal :=
  let converted :=
    match value with
    | PyVal.str s =>
        if param.labels.isEmpty then value
        else if pyDictContains param.labels s then dictGet param.labels s PyVal.none
        else
          match param.labels.find? (fun lv => decide (lv.1.toLower = s.toLower)) with
          | Option.some lv => lv.2
          | Option.none => value
    | _ => value
  if pyTruthy param.convert ∧ pyDictContains (objFieldsOf param.convert) "inversion" then
    applyConversion converted (listOf (dictGet (objFieldsOf param.convert) "inversion" PyVal.none))
  else Except.ok converted

/-- Embeds `PushokMqttBridge._handle_set_command` on an already-parsed
JSON payload (a payload that fails `json.loads` returns with no calls and
is not modelled): resolve the device by friendly name, fetch its cached
adapter, and for every payload entry that resolves to an adapter
parameter convert the value and issue one `set_state` call, returned here
as the list of `(device_id, field_address, value)` invocations in order.
Entries that resolve to no parameter are skipped. -/
def handle_set_command (st : BridgeState) (friendly_name : String)
    (data : List (String × PyVal)) : Except PyExc (List (String × Nat × PyVal)) :=
  match find_device_by_name st friendly_name with
  | Option.none => Except.ok []
  | Option.some device =>
    let adapter :=
      match device.driver with
      | Option.some drv => if drv ≠ "" then pyDictFind st.adapters drv else Option.none
      | Option.none => Option.none
    data.foldlM
      (fun acc kv =>
        match bridge_get_param_by_name adapter kv.1 with
        | Option.none => Except.ok acc
        | Option.some param =>
          match convert_value_for_hub param kv.2 with
          | Except.error e => Except.error e
          | Except.ok converted => Except.ok (acc ++ [(device.id, param.address, converted)]))
      []

/-- Outcome of one `addUser` registration attempt as observed by
`PushokHubClient._try_register_user`: the send raised `CommandError`, the
response's `result` was falsy, or it was truthy. -/
inductive RegOutcome where
  | cmdError
  | falsy
  | truthy

/-- Oracle for the authentication flow: for the n-th handshake run,
whether `decrypt_challenge` succeeds and whether the `authenticate`
response says `authorized`; for the n-th registration attempt, its
outcome.  The transport sends themselves are assumed answered (a send
failure surfaces as `CommandError` and is covered by `RegOutcome.cmdError`
for the one send the claim is about). -/
structure AuthEnv where
  decryptOk : Nat → Bool
  authOk : Nat → Bool
  regResult : Nat → RegOutcome

/-- Embeds the mutual recursion of `PushokHubClient._authenticate` and
`PushokHubClient._try_register_user` (`client.py`), counting registration
attempts: a failed challenge decryption or an unauthorized `authenticate`
response calls `_try_register_user`; a registration whose send raises
`CommandError` or whose result is falsy raises `AuthenticationError`; a
truthy registration result re-runs `_authenticate`, whose nested
`CommandError` (if any) the surrounding `except` converts to
`AuthenticationError`.  Arguments: fuel (the source recursion is
unbounded), the index of the current handshake run, and the number of
registration attempts made so far; the result pairs the outcome with the
final attempt count. -/
def authenticate_model (env : AuthEnv) : Nat → Nat → Nat → Except PyExc Unit × Nat
  | 0, _, reg => (Except.error PyExc.outOfFuel, reg)
  | fuel + 1, run, reg =>
    let register : Except PyExc Unit × Nat :=
      match env.regResult reg with
      | RegOutcome.cmdError => (Except.error PyExc.authenticationError, reg + 1)
      | RegOutcome.falsy => (Except.error PyExc.authenticationError, reg + 1)
      | RegOutcome.truthy =>
        match authenticate_model env fuel (run + 1) (reg + 1) with
        | (Except.error (PyExc.commandError _c _m), r) => (Except.error PyExc.authenticationError, r)
        | (Except.error (PyExc.commandTimeout _s), r) => (Except.error PyExc.authenticationError, r)
        | other => other
    if env.decryptOk run = false then register
    else if env.authOk run = false then register
    else (Except.ok (), reg)

/-- Embeds the adapter-caching discipline of the device-load pass
(`PushokMqttBridge._load_devices`, and identically
`PushokHubCoordinator._load_devices`): for each device whose `driver` is
truthy and not yet a key of the adapter cache, `get_adapter` is invoked
(the `oracle`, indexed by invocation count; `none` embeds the caught,
logged fetch failure) and a successful result is cached under the driver.
The per-device state/format/attribute loads do not touch the adapter
cache and are omitted.  Returns the final cache and the list of drivers
passed to `get_adapter`, in invocation order. -/
def load_devices_adapters {A : Type} (oracle : Nat → String → Option A) :
    List DeviceDescription → List (String × A) → Nat → List (String × A) × List String
  | [], adapters, _ => (adapters, [])
  | device :: rest, adapters, ncalls =>
    match device.driver with
    | Option.some drv =>
      if drv ≠ "" ∧ (pyDictFind adapters drv).isNone = true then
        match oracle ncalls drv with
        | Option.some adapter =>
          let r := load_devices_adapters oracle rest (pyDictSet adapters drv adapter) (ncalls + 1)
          (r.1, drv :: r.2)
        | Option.none =>
          let r := load_devices_adapters oracle rest adapters (ncalls + 1)
          (r.1, drv :: r.2)
      else load_devices_adapters oracle rest adapters ncalls
    | Option.none => load_devices_adapters oracle rest adapters ncalls

theorem pyDictFind_set_self {κ ν : Type} [DecidableEq κ] (d : List (κ × ν)) (k : κ) (v : ν) :
    pyDictFind (pyDictSet d k v) k = Option.some v := by
  induction d with
  | nil => simp [pyDictSet, pyDictFind]
  | cons p rest ih =>
    by_cases h : p.1 = k
    · simp [pyDictSet, pyDictFind, h]
    · simp [pyDictSet, pyDictFind, h, ih]

theorem pyDictFind_set_other {κ ν : Type} [DecidableEq κ] (d : List (κ × ν)) (k k' : κ)
    (v : ν) (h : k' ≠ k) : pyDictFind (pyDictSet d k v) k' = pyDictFind d k' := by
  induction d with
  | nil =>
    simp only [pyDictSet, pyDictFind]
    rw [if_neg (Ne.symm h)]
  | cons p rest ih =>
    simp only [pyDictSet]
    by_cases hp : p.1 = k
    · rw [if_pos hp]
      simp only [pyDictFind]
      rw [if_neg (Ne.symm h), if_neg (by rw [hp]; exact Ne.symm h)]
    · rw [if_neg hp]
      simp only [pyDictFind]
      by_cases hp' : p.1 = k'
      · rw [if_pos hp', if_pos hp']
      · rw [if_neg hp', if_neg hp', ih]

theorem pyDictFind_none_iff {κ ν : Type} [DecidableEq κ] (d : List (κ × ν)) (k : κ) :
    pyDictFind d k = Option.none ↔ ∀ p ∈ d, p.1 ≠ k := by
  induction d with
  | nil => simp [pyDictFind]
  | cons p rest ih =>
    by_cases h : p.1 = k
    · simp [pyDictFind, h]
    · simp [pyDictFind, h, ih]

theorem pyDictSet_fresh {κ ν : Type} [DecidableEq κ] (d : List (κ × ν)) (k : κ) (v : ν)
    (h : pyDictFind d k = Option.none) : pyDictSet d k v = d ++ [(k, v)] := by
  induction d with
  | nil => rfl
  | cons p rest ih =>
    have hp : p.1 ≠ k := (pyDictFind_none_iff _ _).mp h p (by simp)
    have hrest : pyDictFind rest k = Option.none := by
      rw [pyDictFind_none_iff] at h ⊢
      exact fun q hq => h q (by simp [hq])
    simp [pyDictSet, hp, ih hrest]

theorem pyDictPop_append_fresh {κ ν : Type} [DecidableEq κ] (d : List (κ × ν)) (k : κ)
    (v : ν) (h : pyDictFind d k = Option.none) : pyDictPop (d ++ [(k, v)]) k = d := by
  induction d with
  | nil => simp [pyDictPop]
  | cons p rest ih =>
    have hp : p.1 ≠ k := (pyDictFind_none_iff _ _).mp h p (by simp)
    have hrest : pyDictFind rest k = Option.none := by
      rw [pyDictFind_none_iff] at h ⊢
      exact fun q hq => h q (by simp [hq])
    simp [pyDictPop, hp, ih hrest]

/-- Support predicate: a props entry whose key parses to field id `i` and
whose value is an object, i.e. an entry the merge loop applies to `i`. -/
def affectsField (i : Nat) (kv : String × PyVal) : Bool :=
  isDigitKey kv.1 && isObjVal kv.2 && decide (decKeyNat kv.1 = i)

theorem update_state_props_find (props : List (String × PyVal)) (s : DeviceState) (i : Nat) :
    pyDictFind (update_state_props props s).properties i =
      match (props.filter (affectsField i)).getLast? with
      | Option.some kv => Option.some (PropertyValue.from_dict (objFieldsOf kv.2))
      | Option.none => pyDictFind s.properties i := by
  induction props generalizing s with
  | nil => rfl
  | cons kv rest ih =>
    simp only [update_state_props]
    rw [ih]
    by_cases ha : affectsField i kv = true
    · have hd : (isDigitKey kv.1 && isObjVal kv.2) = true := by
        unfold affectsField at ha
        simp only [Bool.and_eq_true] at ha
        simp [ha.1.1, ha.1.2]
      have hk : decKeyNat kv.1 = i := by
        unfold affectsField at ha
        simp only [Bool.and_eq_true, decide_eq_true_eq] at ha
        exact ha.2
      rw [List.filter_cons_of_pos ha]
      cases hrest : (rest.filter (affectsField i)).getLast? with
      | some kv' =>
        have hne : rest.filter (affectsField i) ≠ [] := by
          intro hnil
          rw [hnil] at hrest
          cases hrest
        obtain ⟨y, l, hyl⟩ := List.exists_cons_of_ne_nil hne
        rw [hyl, List.getLast?_cons_cons, ← hyl, hrest]
      | none =>
        have hfil : rest.filter (affectsField i) = [] :=
          List.getLast?_eq_none_iff.mp hrest
        rw [hfil]
        simp only [List.getLast?_singleton]
        rw [hd]
        simp only [if_true]
        rw [← hk, pyDictFind_set_self]
    · rw [List.filter_cons_of_neg (by simpa using ha)]
      cases hrest : (rest.filter (affectsField i)).getLast? with
      | some kv' => rfl
      | none =>
        by_cases hd : (isDigitKey kv.1 && isObjVal kv.2) = true
        · have hk : decKeyNat kv.1 ≠ i := by
            intro hkk
            apply ha
            unfold affectsField
            rw [hd, hkk]
            simp
          rw [hd]
          simp only [if_true]
          exact pyDictFind_set_other _ _ _ _ (Ne.symm hk)
        · rw [Bool.not_eq_true] at hd
          rw [hd]
          simp

theorem update_state_props_device_id (props : List (String × PyVal)) (s : DeviceState) :
    (update_state_props props s).device_id = s.device_id := by
  induction props generalizing s with
  | nil => rfl
  | cons kv rest ih =>
    simp only [update_state_props]
    rw [ih]
    split <;> rfl

/-- Claim C3 (counterexample): the claimed postfix stack semantics fails
on the alphabet program `["self", 2, "+", 3, "*"]` at input 1 — the code
evaluates only `formula[1]` and `formula[2]` and returns 1 + 2 = 3, while
the stack semantics yields (1 + 2) * 3 = 9. -/
theorem claim_C3_counterexample :
    applyConversion (PyVal.num 1)
        [PyVal.str "self", PyVal.num 2, PyVal.str "+", PyVal.num 3, PyVal.str "*"] =
      Except.ok (PyVal.num 3) ∧
    rpnEvalSpec [PyVal.str "self", PyVal.num 2, PyVal.str "+", PyVal.num 3, PyVal.str "*"] 1 =
      Option.some 9 ∧
    (3 : ℚ) ≠ 9 := by
  refine ⟨?_, ?_, by norm_num⟩
  · norm_num [applyConversion, pyFloat, pyAddFloat]
  · norm_num [rpnEvalSpec, rpnStepSpec, List.foldlM]

/-- Claim C3 (amended): the evaluator implements only the single-operation
form `["self", literal, op]` — it reads the literal at index 1 and the
operator at index 2 and computes input-op-literal.  On those three-token
programs (divisor nonzero for `/`) it agrees with the postfix stack
semantics; any program shorter than three tokens returns the input
unchanged; and the two cited evaluations hold:
`Evaluate(["self",10.0,"/"], 1000) = 100.0` and
`Evaluate(["self",100.0,"*"], 1) = 100.0`. -/
theorem claim_C3 :
    (∀ (v : PyVal) (prog : List PyVal), prog.length < 3 →
      applyConversion v prog = Except.ok v) ∧
    (∀ (v q : ℚ) (o : String),
      (o = "+" ∨ o = "-" ∨ o = "*" ∨ (o = "/" ∧ q ≠ 0)) →
      ∃ r : ℚ,
        applyConversion (PyVal.num v) [PyVal.str "self", PyVal.num q, PyVal.str o] =
          Except.ok (PyVal.num r) ∧
        rpnEvalSpec [PyVal.str "self", PyVal.num q, PyVal.str o] v = Option.some r) ∧
    applyConversion (PyVal.num 1000) [PyVal.str "self", PyVal.num 10, PyVal.str "/"] =
      Except.ok (PyVal.num 100) ∧
    applyConversion (PyVal.num 1) [PyVal.str "self", PyVal.num 100, PyVal.str "*"] =
      Except.ok (PyVal.num 100) := by
  refine ⟨?_, ?_, by norm_num [applyConversion, pyFloat, pyDivFloat],
    by norm_num [applyConversion, pyFloat, pyMulFloat]⟩
  · intro v prog h
    unfold applyConversion
    rw [if_pos h]
  · intro v q o ho
    rcases ho with rfl | rfl | rfl | ⟨rfl, hq⟩
    · exact ⟨v + q, rfl, rfl⟩
    · exact ⟨v - q, rfl, rfl⟩
    · exact ⟨v * q, rfl, rfl⟩
    · refine ⟨v / q, ?_, ?_⟩
      · simp [applyConversion, pyFloat, pyDivFloat, hq]
      · simp [rpnEvalSpec, rpnStepSpec, List.foldlM, hq]

/-- Claim C3 (witness): instantiates the amended claim at the empty
program and at `["self", 2, "+"]` with input 7. -/
theorem claim_C3_witness :
    applyConversion (PyVal.num 5) [] = Except.ok (PyVal.num 5) ∧
    ∃ r : ℚ,
      applyConversion (PyVal.num 7) [PyVal.str "self", PyVal.num 2, PyVal.str "+"] =
        Except.ok (PyVal.num r) ∧
      rpnEvalSpec [PyVal.str "self", PyVal.num 2, PyVal.str "+"] 7 = Option.some r :=
  ⟨claim_C3.1 (PyVal.num 5) [] (by decide),
   claim_C3.2.1 7 2 "+" (Or.inl rfl)⟩

/-- Claim C4 (counterexample): a conversion program with a zero divisor
does not yield 0 — it raises `ZeroDivisionError`, which the handler's
`except (TypeError, ValueError, IndexError)` clause does not catch. -/
theorem claim_C4_counterexample :
    applyConversion (PyVal.num 1) [PyVal.str "self", PyVal.num 0, PyVal.str "/"] =
      Except.error PyExc.zeroDivisionError := rfl

/-- Claim C4 (amended): for every numeric input, a division program with a
zero divisor raises `ZeroDivisionError` (uncaught) instead of yielding 0;
the spec's cited example `Evaluate(["self",5,"/"], 0) = 0` does hold
without any exception, because it divides the input 0 by the divisor 5. -/
theorem claim_C4 :
    (∀ v : ℚ,
      applyConversion (PyVal.num v) [PyVal.str "self", PyVal.num 0, PyVal.str "/"] =
        Except.error PyExc.zeroDivisionError) ∧
    applyConversion (PyVal.num 0) [PyVal.str "self", PyVal.num 5, PyVal.str "/"] =
      Except.ok (PyVal.num 0) :=
  ⟨fun _ => rfl, by norm_num [applyConversion, pyFloat, pyDivFloat]⟩

/-- Test fixture: the adapter parameter of claim C6 — a writable
brightness field at address 3 with inversion program
`["self", 2.55, "*"]` and no label table. -/
def dimmerParam : AdapterParam :=
  { address := 3, access := "rw", param_type := "int",
    name := Option.some "brightness", description := Option.none,
    min_value := PyVal.none, max_value := PyVal.none, labels := [], view_params := [],
    convert := PyVal.obj
      [("inversion", PyVal.list [PyVal.str "self", PyVal.num (2.55 : ℚ), PyVal.str "*"])],
    ya := PyVal.none }

/-- Test fixture: an adapter exposing only `dimmerParam`. -/
def dimmerAdapter : DeviceAdapter :=
  { driver := "dimmer", crc := PyVal.num 1, description := Option.none,
    device_type := Option.none, url := Option.none, params := [dimmerParam],
    ya_device_type := PyVal.none }

/-- Test fixture: a device using the `dimmer` driver. -/
def dimmerDevice : DeviceDescription :=
  { id := "0x01", manufacturer := PyVal.none, model := PyVal.none,
    network_id := PyVal.none, driver := Option.some "dimmer", last_seen := PyVal.none,
    lqi := PyVal.none, warning := PyVal.bool false, has_description := PyVal.none,
    attr_crc := PyVal.none, adapter_crc := PyVal.none, error := PyVal.none }

/-- Test fixture: a second device sharing the `dimmer` driver. -/
def dimmerDevice2 : DeviceDescription :=
  { dimmerDevice with id := "0x02" }

/-- Test fixture: a bridge whose registry holds `dimmerDevice` with its
adapter cached, no stored attribute names and no configured name
prefixing. -/
def dimmerBridgeState : BridgeState :=
  { devices := [("0x01", dimmerDevice)], attributes := [],
    adapters := [("dimmer", dimmerAdapter)], states := [], device_pref := "" }

/-- Claim C6 (counterexample): the inbound set `{"brightness": 50}` with
inversion `["self", 2.55, "*"]` issues one `set_state` call with raw value
50 · 2.55 = 127.5, not 127 — no rounding per the declared numeric type
happens anywhere on the path (the `int(result)` branch of
`_apply_conversion` is dead because the operand is always a float). -/
theorem claim_C6_counterexample :
    handle_set_command dimmerBridgeState "0x01" [("brightness", PyVal.num 50)] =
      Except.ok [("0x01", 3, PyVal.num (127.5 : ℚ))] ∧
    (127.5 : ℚ) ≠ (127 : ℚ) := by
  constructor
  · have h1 : handle_set_command dimmerBridgeState "0x01" [("brightness", PyVal.num 50)] =
        Except.ok [("0x01", 3, PyVal.num (50 * (2.55 : ℚ)))] := rfl
    rw [h1]
    norm_num
  · norm_num

/-- Claim C6 (amended): handling the inbound set `{"brightness": v}` for
the fixture parameter issues exactly one `set_state` call for the
parameter's address 3 with the raw value `v * 2.55`, unrounded (at the
cited input 50 that value is 127.5, not 127). -/
theorem claim_C6 :
    ∀ v : ℚ,
      handle_set_command dimmerBridgeState "0x01" [("brightness", PyVal.num v)] =
        Except.ok [("0x01", 3, PyVal.num (v * (2.55 : ℚ)))] :=
  fun _ => rfl

/-- Claim C1: handshake IV discipline.  Whenever the shared key is set,
`decrypt_challenge` performs exactly one AES-GCM decryption, under the raw
ECDH shared key, with IV equal to twelve zero bytes and no associated
data, and stores the plaintext as `dev_nonce`; `create_auth_payload`
performs exactly one encryption of `signature ++ user_nonce` under the
same key with IV equal to the first 12 bytes of `dev_nonce` and no AAD;
and `verify_gateway_signature` performs exactly one decryption under that
same key with that same IV `dev_nonce[0:12]` and no AAD. -/
theorem claim_C1 :
    ∀ (gcmDecrypt : List Nat → List Nat → List Nat → Option (List Nat) → Option (List Nat))
      (gcmEncrypt : List Nat → List Nat → List Nat → Option (List Nat) → List Nat)
      (sign : List Nat → List Nat) (verify : List Nat → List Nat → Bool)
      (st : PushokAuthSession) (sk rand : List Nat) (enc1 enc2 : List Char),
      st.shared_key = Option.some sk → sk ≠ [] →
      ((decrypt_challenge gcmDecrypt st enc1).2 =
          [⟨false, sk, List.replicate 12 0, b64decode enc1, Option.none⟩] ∧
        (∀ dn', gcmDecrypt sk (List.replicate 12 0) (b64decode enc1) Option.none =
            Option.some dn' →
          (decrypt_challenge gcmDecrypt st enc1).1 =
            Except.ok (dn', { st with dev_nonce := Option.some dn' }))) ∧
      (∀ dn, st.dev_nonce = Option.some dn → dn ≠ [] →
        (create_auth_payload gcmEncrypt sign rand st).2 =
            [⟨true, sk, List.take 12 dn, sign (dn ++ rand) ++ rand, Option.none⟩] ∧
          (create_auth_payload gcmEncrypt sign rand st).1 =
            Except.ok
              (b64encode (gcmEncrypt sk (List.take 12 dn) (sign (dn ++ rand) ++ rand)
                  Option.none),
                { st with user_nonce := Option.some rand }) ∧
          (verify_gateway_signature gcmDecrypt verify st enc2).2 =
            [⟨false, sk, List.take 12 dn, b64decode enc2, Option.none⟩]) := by
  intro gcmDecrypt gcmEncrypt sign verify st sk rand enc1 enc2 hsk hskne
  obtain ⟨osk, odn, oun⟩ := st
  replace hsk : osk = Option.some sk := hsk
  subst hsk
  have hT : bytesTruthy (Option.some sk) = true := by
    cases sk with
    | nil => exact absurd rfl hskne
    | cons a l => rfl
  refine ⟨⟨?_, ?_⟩, ?_⟩
  · have hiv : (List.replicate 12 (0 : Nat)) = [0, 0, 0, 0, 0, 0, 0, 0, 0, 0, 0, 0] := rfl
    rw [hiv]
    cases hg : gcmDecrypt sk [0, 0, 0, 0, 0, 0, 0, 0, 0, 0, 0, 0] (b64decode enc1)
        Option.none <;>
      simp [decrypt_challenge, hT, hg]
  · intro dn' hdn'
    rw [show (List.replicate 12 (0 : Nat)) = [0, 0, 0, 0, 0, 0, 0, 0, 0, 0, 0, 0] from rfl]
      at hdn'
    simp [decrypt_challenge, hT, hdn']
  · intro dn hdn hdnne
    replace hdn : odn = Option.some dn := hdn
    subst hdn
    have hTd : bytesTruthy (Option.some dn) = true := by
      cases dn with
      | nil => exact absurd rfl hdnne
      | cons a l => rfl
    refine ⟨?_, ?_, ?_⟩
    · simp [create_auth_payload, hT, hTd]
    · simp [create_auth_payload, hT, hTd]
    · cases hg : gcmDecrypt sk (List.take 12 dn) (b64decode enc2) Option.none with
      | none => simp [verify_gateway_signature, hT, hTd, hg]
      | some dec =>
        cases hou : bytesTruthy oun <;>
          simp [verify_gateway_signature, hT, hTd, hg, hou]

/-- Claim C1 (witness): instantiates the IV-discipline theorem at a
concrete session (shared key `[1]`, dev nonce `[2]`) with pass-through
oracles and empty ciphertexts. -/
theorem claim_C1_witness :
    (decrypt_challenge (fun _ _ d _ => Option.some d)
        ⟨Option.some [1], Option.some [2], Option.none⟩ []).2 =
      [⟨false, [1], List.replicate 12 0, b64decode [], Option.none⟩] ∧
    (verify_gateway_signature (fun _ _ d _ => Option.some d) (fun _ _ => true)
        ⟨Option.some [1], Option.some [2], Option.none⟩ []).2 =
      [⟨false, [1], List.take 12 [2], b64decode [], Option.none⟩] :=
  ⟨(claim_C1 (fun _ _ d _ => Option.some d) (fun _ _ d _ => d) (fun m => m) (fun _ _ => true)
      ⟨Option.some [1], Option.some [2], Option.none⟩ [1] [3] [] [] rfl (by decide)).1.1,
    ((claim_C1 (fun _ _ d _ => Option.some d) (fun _ _ d _ => d) (fun m => m) (fun _ _ => true)
      ⟨Option.some [1], Option.some [2], Option.none⟩ [1] [3] [] [] rfl (by decide)).2
      [2] rfl (by decide)).2.2⟩

/-- Claim C2: pending-slot discipline of `_send_command` and the receive
loop.  For every completion path (a resolved response — with or without an
error envelope — or a timeout), the slot registered under the freshly
allocated id is removed again, leaving the pending table exactly as
before; an explicit error envelope raises `CommandError` carrying its code
and `msg`; a timeout raises the timeout-specific error for the method; and
a response frame whose id has no pending slot leaves the client state
completely unchanged. -/
theorem claim_C2 :
    (∀ (st : ClientState) (method : String) (outcome : Option (List (String × PyVal))),
      st.ws = true → pyDictFind st.pending (st.command_id + 1) = Option.none →
      (send_command st method outcome).2.pending = st.pending ∧
        pyDictFind (send_command st method outcome).2.pending (st.command_id + 1) =
          Option.none) ∧
    (∀ (st : ClientState) (method : String) (response : List (String × PyVal)),
      st.ws = true → pyDictContains response "error" = true →
      (send_command st method (Option.some response)).1 =
        Except.error (PyExc.commandError (dictGet response "error" PyVal.none)
          (dictGet response "msg" (PyVal.str "")))) ∧
    (∀ (st : ClientState) (method : String), st.ws = true →
      (send_command st method Option.none).1 =
        Except.error (PyExc.commandTimeout method)) ∧
    (∀ (st : ClientState) (data : List (String × PyVal)) (q : ℚ),
      dictGet data "id" PyVal.none = PyVal.num q →
      (∀ p ∈ st.pending, ((p.1 : ℚ) ≠ q)) →
      receive_handle st data = st) := by
  refine ⟨?_, ?_, ?_, ?_⟩
  · intro st method outcome hws hfresh
    have hpop : pyDictPop (pyDictSet st.pending (st.command_id + 1) Option.none)
        (st.command_id + 1) = st.pending := by
      rw [pyDictSet_fresh _ _ _ hfresh, pyDictPop_append_fresh _ _ _ hfresh]
    cases outcome <;> simp [send_command, hws, hpop, hfresh]
  · intro st method response hws herr
    simp [send_command, hws, herr]
  · intro st method hws
    simp [send_command, hws]
  · intro st data q hid hnone
    have hfind : st.pending.find? (fun p => decide ((p.1 : ℚ) = q)) = Option.none := by
      rw [List.find?_eq_none]
      intro x hx
      simp only [decide_eq_true_eq]
      exact hnone x hx
    by_cases hb : pyDictContains data "broadcast" = true
    · simp [receive_handle, hb]
    · rw [Bool.not_eq_true] at hb
      simp [receive_handle, hb, hid, hfind]

/-- Claim C2 (witness): instantiates the slot discipline at an empty
pending table (all four conjuncts, with concrete responses and fresh
ids). -/
theorem claim_C2_witness :
    ((send_command ⟨true, 0, []⟩ "getState" Option.none).2.pending = [] ∧
      pyDictFind (send_command ⟨true, 0, []⟩ "getState" Option.none).2.pending 1 =
        Option.none) ∧
    (send_command ⟨true, 0, []⟩ "getState"
        (Option.some [("id", PyVal.num 1), ("error", PyVal.str "bad")])).1 =
      Except.error (PyExc.commandError
        (dictGet [("id", PyVal.num 1), ("error", PyVal.str "bad")] "error" PyVal.none)
        (dictGet [("id", PyVal.num 1), ("error", PyVal.str "bad")] "msg" (PyVal.str ""))) ∧
    (send_command ⟨true, 0, []⟩ "getState" Option.none).1 =
      Except.error (PyExc.commandTimeout "getState") ∧
    receive_handle ⟨true, 5, []⟩ [("id", PyVal.num 3)] = ⟨true, 5, []⟩ :=
  ⟨claim_C2.1 ⟨true, 0, []⟩ "getState" Option.none rfl rfl,
    claim_C2.2.1 ⟨true, 0, []⟩ "getState" [("id", PyVal.num 1), ("error", PyVal.str "bad")]
      rfl (by decide),
    claim_C2.2.2.1 ⟨true, 0, []⟩ "getState" rfl,
    claim_C2.2.2.2 ⟨true, 5, []⟩ [("id", PyVal.num 3)] 3 (by norm_num [dictGet, pyDictFind])
      (by intro p hp; cases hp)⟩

/-- Test fixture: a gateway environment whose challenge decryption fails
for the first two handshake runs and succeeds from the third on, while
every `addUser` registration reports a truthy result. -/
def envTwoRegs : AuthEnv :=
  { decryptOk := fun n => decide (2 ≤ n), authOk := fun _ => true,
    regResult := fun _ => RegOutcome.truthy }

/-- Claim C5 (counterexample): an execution of the authentication flow in
which two self-registration attempts are made — the first re-run handshake
fails again, so `_try_register_user` is entered a second time (nothing in
the code caps registration at one attempt), and the flow even ends
successfully. -/
theorem claim_C5_counterexample :
    authenticate_model envTwoRegs 10 0 0 = (Except.ok (), 2) := rfl

/-- Claim C5 (amended): a failed challenge decryption or a failed
authentication triggers a self-registration attempt and a re-run of the
handshake; a registration whose `addUser` command errors or returns a
falsy result is fatal (`AuthenticationError`) after exactly one attempt,
and a successful registration followed by a successful re-run finishes
with exactly one attempt — but the code does not bound the number of
attempts, so executions with two or more registrations exist (see the
counterexample). -/
theorem claim_C5 :
    (∀ (env : AuthEnv) (fuel : Nat), env.decryptOk 0 = true → env.authOk 0 = true →
      authenticate_model env (fuel + 1) 0 0 = (Except.ok (), 0)) ∧
    (∀ (env : AuthEnv) (fuel : Nat),
      (env.decryptOk 0 = false ∨ env.authOk 0 = false) →
      (env.regResult 0 = RegOutcome.cmdError ∨ env.regResult 0 = RegOutcome.falsy) →
      authenticate_model env (fuel + 1) 0 0 = (Except.error PyExc.authenticationError, 1)) ∧
    (∀ (env : AuthEnv) (fuel : Nat),
      (env.decryptOk 0 = false ∨ env.authOk 0 = false) →
      env.regResult 0 = RegOutcome.truthy →
      env.decryptOk 1 = true → env.authOk 1 = true →
      authenticate_model env (fuel + 2) 0 0 = (Except.ok (), 1)) := by
  refine ⟨?_, ?_, ?_⟩
  · intro env fuel h0 h1
    simp [authenticate_model, h0, h1]
  · intro env fuel hfail hreg
    have hr : (match env.regResult 0 with
        | RegOutcome.cmdError => ((Except.error PyExc.authenticationError :
              Except PyExc Unit), 0 + 1)
        | RegOutcome.falsy => (Except.error PyExc.authenticationError, 0 + 1)
        | RegOutcome.truthy =>
          match authenticate_model env fuel 1 1 with
          | (Except.error (PyExc.commandError _ _), r) =>
              (Except.error PyExc.authenticationError, r)
          | (Except.error (PyExc.commandTimeout _), r) =>
              (Except.error PyExc.authenticationError, r)
          | other => other) =
        (Except.error PyExc.authenticationError, 1) := by
      rcases hreg with hreg | hreg <;> rw [hreg]
    rcases hfail with h | h
    · by_cases ha : env.authOk 0 = true <;>
        simp [authenticate_model, h, ha, hr]
    · by_cases hd : env.decryptOk 0 = true <;>
        simp [authenticate_model, h, hd, hr]
  · intro env fuel hfail hreg h1 h2
    have hin : authenticate_model env (fuel + 1) 1 1 = (Except.ok (), 1) := by
      simp [authenticate_model, h1, h2]
    show authenticate_model env (fuel + 1 + 1) 0 0 = (Except.ok (), 1)
    rw [authenticate_model]
    rcases hfail with h | h
    · simp [h, hreg, hin]
    · by_cases hd : env.decryptOk 0 = true
      · simp [hd, h, hreg, hin]
      · rw [Bool.not_eq_true] at hd
        simp [hd, hreg, hin]

/-- Claim C5 (witness): instantiates the amended behaviour at concrete
environments — an immediately successful handshake, a failed handshake
with a failing registration, and a failed handshake whose single
registration and re-run succeed. -/
theorem claim_C5_witness :
    authenticate_model ⟨fun _ => true, fun _ => true, fun _ => RegOutcome.truthy⟩ 5 0 0 =
      (Except.ok (), 0) ∧
    authenticate_model ⟨fun _ => false, fun _ => true, fun _ => RegOutcome.cmdError⟩ 5 0 0 =
      (Except.error PyExc.authenticationError, 1) ∧
    authenticate_model ⟨fun n => decide (1 ≤ n), fun _ => true,
        fun _ => RegOutcome.truthy⟩ 5 0 0 =
      (Except.ok (), 1) :=
  ⟨claim_C5.1 ⟨fun _ => true, fun _ => true, fun _ => RegOutcome.truthy⟩ 4 rfl rfl,
    claim_C5.2.1 ⟨fun _ => false, fun _ => true, fun _ => RegOutcome.cmdError⟩ 4
      (Or.inl rfl) (Or.inl rfl),
    claim_C5.2.2 ⟨fun n => decide (1 ≤ n), fun _ => true, fun _ => RegOutcome.truthy⟩ 3
      (Or.inl (by decide)) rfl (by decide) rfl⟩

/-- Claim C7: a broadcast object-update whose device id is not a key of
the device registry — or whose id is falsy — creates no registry entry,
modifies no state, and raises no exception, in both the coordinator's and
the bridge's update handler (the handlers are total functions and return
the state unchanged). -/
theorem claim_C7 :
    (∀ (st : CoordState) (data : List (String × PyVal)) (did : String),
      dictGet data "id" PyVal.none = PyVal.str did →
      pyDictFind st.devices did = Option.none →
      coordinator_handle_object_update st data = st) ∧
    (∀ (st : BridgeState) (data : List (String × PyVal)) (did : String),
      dictGet data "id" PyVal.none = PyVal.str did →
      pyDictFind st.devices did = Option.none →
      bridge_handle_object_update st data = st) ∧
    (∀ (st : CoordState) (data : List (String × PyVal)),
      pyTruthy (dictGet data "id" PyVal.none) = false →
      coordinator_handle_object_update st data = st) ∧
    (∀ (st : BridgeState) (data : List (String × PyVal)),
      pyTruthy (dictGet data "id" PyVal.none) = false →
      bridge_handle_object_update st data = st) := by
  refine ⟨?_, ?_, ?_, ?_⟩
  · intro st data did hid hfind
    by_cases ht : pyTruthy (PyVal.str did) = false <;>
      simp [coordinator_handle_object_update, hid, ht, hfind]
  · intro st data did hid hfind
    by_cases ht : pyTruthy (PyVal.str did) = false <;>
      simp [bridge_handle_object_update, hid, ht, hfind]
  · intro st data ht
    simp [coordinator_handle_object_update, ht]
  · intro st data ht
    simp [bridge_handle_object_update, ht]

/-- Claim C7 (witness): instantiates the unknown-device behaviour at a
one-device registry receiving an update for a different id, and the
falsy-id behaviour at an empty payload. -/
theorem claim_C7_witness :
    coordinator_handle_object_update ⟨[("0x01", dimmerDevice)], []⟩
        [("id", PyVal.str "0xff")] = ⟨[("0x01", dimmerDevice)], []⟩ ∧
    bridge_handle_object_update dimmerBridgeState [("id", PyVal.str "0xff")] =
      dimmerBridgeState ∧
    coordinator_handle_object_update ⟨[("0x01", dimmerDevice)], []⟩ [] =
      ⟨[("0x01", dimmerDevice)], []⟩ ∧
    bridge_handle_object_update dimmerBridgeState [] = dimmerBridgeState :=
  ⟨claim_C7.1 ⟨[("0x01", dimmerDevice)], []⟩ [("id", PyVal.str "0xff")] "0xff" rfl rfl,
    claim_C7.2.1 dimmerBridgeState [("id", PyVal.str "0xff")] "0xff" rfl rfl,
    claim_C7.2.2.1 ⟨[("0x01", dimmerDevice)], []⟩ [] rfl,
    claim_C7.2.2.2 dimmerBridgeState [] rfl⟩

theorem merged_state_properties (props : List (String × PyVal)) (s : DeviceState) :
    (merged_state props s).properties = (update_state_props props s).properties := by
  unfold merged_state
  split <;> rfl

theorem update_description_props_preserved (props : List (String × PyVal))
    (dev : DeviceDescription) :
    (update_description_props props dev).id = dev.id ∧
    (update_description_props props dev).manufacturer = dev.manufacturer ∧
    (update_description_props props dev).model = dev.model ∧
    (update_description_props props dev).network_id = dev.network_id ∧
    (update_description_props props dev).driver = dev.driver ∧
    (update_description_props props dev).has_description = dev.has_description ∧
    (update_description_props props dev).attr_crc = dev.attr_crc ∧
    (update_description_props props dev).adapter_crc = dev.adapter_crc ∧
    (update_description_props props dev).error = dev.error := by
  unfold update_description_props
  split_ifs <;> exact ⟨rfl, rfl, rfl, rfl, rfl, rfl, rfl, rfl, rfl⟩

theorem update_description_props_sparse (props : List (String × PyVal))
    (dev : DeviceDescription) :
    (pyDictContains props "lqi" = false →
      (update_description_props props dev).lqi = dev.lqi) ∧
    (pyDictContains props "lqi" = true →
      (update_description_props props dev).lqi = dictGet props "lqi" PyVal.none) ∧
    (pyDictContains props "lse" = false →
      (update_description_props props dev).last_seen = dev.last_seen) ∧
    (pyDictContains props "lse" = true →
      (update_description_props props dev).last_seen = dictGet props "lse" PyVal.none) ∧
    (pyDictContains props "warn" = false →
      (update_description_props props dev).warning = dev.warning) ∧
    (pyDictContains props "warn" = true →
      (update_description_props props dev).warning = dictGet props "warn" PyVal.none) := by
  unfold update_description_props
  split_ifs with h1 h2 h3 <;> refine ⟨?_, ?_, ?_, ?_, ?_, ?_⟩ <;> intro hc <;> simp_all

theorem coordinator_update_known (st : CoordState) (data : List (String × PyVal))
    (did : String) (dev : DeviceDescription)
    (hid : dictGet data "id" PyVal.none = PyVal.str did) (hne : did ≠ "")
    (hdev : pyDictFind st.devices did = Option.some dev) :
    coordinator_handle_object_update st data =
      ⟨pyDictSet st.devices did
          (update_description_props (objFieldsOf (dictGet data "props" (PyVal.obj []))) dev),
        pyDictSet st.data did
          (merged_state (objFieldsOf (dictGet data "props" (PyVal.obj [])))
            (match pyDictFind st.data did with
              | Option.some s => s
              | Option.none => ⟨did, [], PyVal.none⟩))⟩ := by
  have hT : pyTruthy (PyVal.str did) = true := by simp [pyTruthy, hne]
  simp [coordinator_handle_object_update, hid, hT, hdev]

theorem bridge_update_known (st : BridgeState) (data : List (String × PyVal))
    (did : String) (dev : DeviceDescription) (s0 : DeviceState)
    (hid : dictGet data "id" PyVal.none = PyVal.str did) (hne : did ≠ "")
    (hdev : pyDictFind st.devices did = Option.some dev)
    (hs0 : pyDictFind st.states did = Option.some s0) :
    bridge_handle_object_update st data =
      { st with states := pyDictSet st.states did (update_state_props (objFieldsOf (dictGet data "props" (PyVal.obj []))) s0) } := by
  have hT : pyTruthy (PyVal.str did) = true := by simp [pyTruthy, hne]
  simp [bridge_handle_object_update, hid, hT, hdev, hs0]

/-- Claim C8: sparse merge of broadcast updates for a known device.  Only
the field ids carried by props entries (digit key, object value) have
their `PropertyValue` replaced or inserted — the inserted value is the
`PropertyValue.from_dict` of the last such entry — and every field id with
no such entry keeps its prior value; of the device description only the
explicitly present `lqi` / `lse` / `warn` keys overwrite their fields,
every other description field and every absent key retaining the prior
value; entries of other devices are untouched.  The same per-field merge
holds for the bridge's handler on a device with a loaded state. -/
theorem claim_C8 :
    ∀ (st : CoordState) (data props : List (String × PyVal)) (did : String)
      (dev : DeviceDescription),
      dictGet data "id" PyVal.none = PyVal.str did → did ≠ "" →
      pyDictFind st.devices did = Option.some dev →
      props = objFieldsOf (dictGet data "props" (PyVal.obj [])) →
      (pyDictFind (coordinator_handle_object_update st data).devices did =
          Option.some (update_description_props props dev) ∧
        (update_description_props props dev).id = dev.id ∧
        (update_description_props props dev).manufacturer = dev.manufacturer ∧
        (update_description_props props dev).model = dev.model ∧
        (update_description_props props dev).network_id = dev.network_id ∧
        (update_description_props props dev).driver = dev.driver ∧
        (update_description_props props dev).has_description = dev.has_description ∧
        (update_description_props props dev).attr_crc = dev.attr_crc ∧
        (update_description_props props dev).adapter_crc = dev.adapter_crc ∧
        (update_description_props props dev).error = dev.error ∧
        (pyDictContains props "lqi" = false →
          (update_description_props props dev).lqi = dev.lqi) ∧
        (pyDictContains props "lqi" = true →
          (update_description_props props dev).lqi = dictGet props "lqi" PyVal.none) ∧
        (pyDictContains props "lse" = false →
          (update_description_props props dev).last_seen = dev.last_seen) ∧
        (pyDictContains props "lse" = true →
          (update_description_props props dev).last_seen = dictGet props "lse" PyVal.none) ∧
        (pyDictContains props "warn" = false →
          (update_description_props props dev).warning = dev.warning) ∧
        (pyDictContains props "warn" = true →
          (update_description_props props dev).warning = dictGet props "warn" PyVal.none)) ∧
      (∀ other, other ≠ did →
        pyDictFind (coordinator_handle_object_update st data).devices other =
          pyDictFind st.devices other) ∧
      (∀ s0, pyDictFind st.data did = Option.some s0 →
        ∃ s', pyDictFind (coordinator_handle_object_update st data).data did =
            Option.some s' ∧
          (∀ i, props.filter (affectsField i) = [] →
            pyDictFind s'.properties i = pyDictFind s0.properties i) ∧
          (∀ i kv, (props.filter (affectsField i)).getLast? = Option.some kv →
            pyDictFind s'.properties i =
              Option.some (PropertyValue.from_dict (objFieldsOf kv.2)))) ∧
      (∀ (bst : BridgeState) (dev0 : DeviceDescription) (s0 : DeviceState),
        pyDictFind bst.devices did = Option.some dev0 →
        pyDictFind bst.states did = Option.some s0 →
        ∃ s', pyDictFind (bridge_handle_object_update bst data).states did =
            Option.some s' ∧
          (∀ i, props.filter (affectsField i) = [] →
            pyDictFind s'.properties i = pyDictFind s0.properties i) ∧
          (∀ i kv, (props.filter (affectsField i)).getLast? = Option.some kv →
            pyDictFind s'.properties i =
              Option.some (PropertyValue.from_dict (objFieldsOf kv.2)))) := by
  intro st data props did dev hid hne hdev hprops
  subst hprops
  have heq := coordinator_update_known st data did dev hid hne hdev
  obtain ⟨f1, f2, f3, f4, f5, f6, f7, f8, f9⟩ :=
    update_description_props_preserved (objFieldsOf (dictGet data "props" (PyVal.obj []))) dev
  obtain ⟨g1, g2, g3, g4, g5, g6⟩ :=
    update_description_props_sparse (objFieldsOf (dictGet data "props" (PyVal.obj []))) dev
  refine ⟨⟨?_, f1, f2, f3, f4, f5, f6, f7, f8, f9, g1, g2, g3, g4, g5, g6⟩, ?_, ?_, ?_⟩
  · rw [heq]
    exact pyDictFind_set_self _ _ _
  · intro other hother
    rw [heq]
    exact pyDictFind_set_other _ _ _ _ hother
  · intro s0 hs0
    rw [heq, hs0]
    refine ⟨merged_state (objFieldsOf (dictGet data "props" (PyVal.obj []))) s0,
      pyDictFind_set_self _ _ _, ?_, ?_⟩
    · intro i hf
      rw [merged_state_properties, update_state_props_find, hf]
      rfl
    · intro i kv hf
      rw [merged_state_properties, update_state_props_find, hf]
  · intro bst dev0 s0 hdev0 hs0
    rw [bridge_update_known bst data did dev0 s0 hid hne hdev0 hs0]
    refine ⟨update_state_props (objFieldsOf (dictGet data "props" (PyVal.obj []))) s0,
      ?_, ?_, ?_⟩
    · show pyDictFind (pyDictSet bst.states did (update_state_props (objFieldsOf (dictGet data "props" (PyVal.obj []))) s0)) did = _
      exact pyDictFind_set_self _ _ _
    · intro i hf
      rw [update_state_props_find, hf]
      rfl
    · intro i kv hf
      rw [update_state_props_find, hf]

/-- Claim C8 (witness): instantiates the sparse merge at a one-device
registry receiving `props = {"lqi": 80}` — the description is merged and,
the props carrying no field entries, every field id keeps its prior
value. -/
theorem claim_C8_witness :
    pyDictFind (coordinator_handle_object_update
        ⟨[("0x01", dimmerDevice)], [("0x01", ⟨"0x01", [], PyVal.none⟩)]⟩
        [("id", PyVal.str "0x01"), ("props", PyVal.obj [("lqi", PyVal.num 80)])]).devices
        "0x01" =
      Option.some (update_description_props [("lqi", PyVal.num 80)] dimmerDevice) ∧
    (∃ s', pyDictFind (coordinator_handle_object_update
          ⟨[("0x01", dimmerDevice)], [("0x01", ⟨"0x01", [], PyVal.none⟩)]⟩
          [("id", PyVal.str "0x01"), ("props", PyVal.obj [("lqi", PyVal.num 80)])]).data
          "0x01" = Option.some s' ∧
      (∀ i, List.filter (affectsField i) [("lqi", PyVal.num 80)] = [] →
        pyDictFind s'.properties i =
          pyDictFind (⟨"0x01", [], PyVal.none⟩ : DeviceState).properties i) ∧
      (∀ i kv, (List.filter (affectsField i) [("lqi", PyVal.num 80)]).getLast? =
          Option.some kv →
        pyDictFind s'.properties i =
          Option.some (PropertyValue.from_dict (objFieldsOf kv.2)))) :=
  have h := claim_C8 ⟨[("0x01", dimmerDevice)], [("0x01", ⟨"0x01", [], PyVal.none⟩)]⟩
    [("id", PyVal.str "0x01"), ("props", PyVal.obj [("lqi", PyVal.num 80)])]
    [("lqi", PyVal.num 80)] "0x01" dimmerDevice rfl (by decide) rfl rfl
  ⟨h.1.1, h.2.2.1 ⟨"0x01", [], PyVal.none⟩ rfl⟩

theorem pyDictFind_set_isSome {κ ν : Type} [DecidableEq κ] (d : List (κ × ν)) (k k' : κ)
    (v : ν) (h : (pyDictFind d k').isSome = true) :
    (pyDictFind (pyDictSet d k v) k').isSome = true := by
  by_cases hk : k' = k
  · subst hk
    rw [pyDictFind_set_self]
    rfl
  · rw [pyDictFind_set_other _ _ _ _ hk]
    exact h

theorem load_adapters_mono {A : Type} (oracle : Nat → String → Option A)
    (devs : List DeviceDescription) :
    ∀ (ad : List (String × A)) (n : Nat) (drv : String),
      (pyDictFind ad drv).isSome = true →
      (pyDictFind (load_devices_adapters oracle devs ad n).1 drv).isSome = true := by
  induction devs with
  | nil => intro ad n drv h; exact h
  | cons device rest ih =>
    intro ad n drv h
    cases hdrv : device.driver with
    | none =>
      simp only [load_devices_adapters, hdrv]
      exact ih ad n drv h
    | some d =>
      simp only [load_devices_adapters, hdrv]
      by_cases hc : d ≠ "" ∧ (pyDictFind ad d).isNone = true
      · rw [if_pos hc]
        cases ho : oracle n d with
        | some a =>
          simp only [ho]
          exact ih _ _ drv (pyDictFind_set_isSome _ _ _ _ h)
        | none =>
          simp only [ho]
          exact ih ad (n + 1) drv h
      · rw [if_neg hc]
        exact ih ad n drv h

theorem load_adapters_not_invoked {A : Type} (oracle : Nat → String → Option A)
    (devs : List DeviceDescription) :
    ∀ (ad : List (String × A)) (n : Nat) (drv : String),
      (pyDictFind ad drv).isSome = true →
      drv ∉ (load_devices_adapters oracle devs ad n).2 := by
  induction devs with
  | nil =>
    intro ad n drv h hmem
    simp [load_devices_adapters] at hmem
  | cons device rest ih =>
    intro ad n drv h
    cases hdrv : device.driver with
    | none =>
      simp only [load_devices_adapters, hdrv]
      exact ih ad n drv h
    | some d =>
      simp only [load_devices_adapters, hdrv]
      by_cases hc : d ≠ "" ∧ (pyDictFind ad d).isNone = true
      · rw [if_pos hc]
        have hne : drv ≠ d := by
          intro he
          subst he
          rw [Option.isSome_iff_exists] at h
          obtain ⟨x, hx⟩ := h
          rw [hx] at hc
          cases hc.2
        cases ho : oracle n d with
        | some a =>
          simp only [ho]
          intro hmem
          rcases List.mem_cons.mp hmem with he | hm
          · exact hne he
          · exact ih _ _ drv (pyDictFind_set_isSome _ _ _ _ h) hm
        | none =>
          simp only [ho]
          intro hmem
          rcases List.mem_cons.mp hmem with he | hm
          · exact hne he
          · exact ih ad (n + 1) drv h hm
      · rw [if_neg hc]
        exact ih ad n drv h

theorem load_adapters_nodup {A : Type} (oracle : Nat → String → Option A)
    (hsucc : ∀ m s', (oracle m s').isSome = true) (devs : List DeviceDescription) :
    ∀ (ad : List (String × A)) (n : Nat),
      List.Nodup (load_devices_adapters oracle devs ad n).2 := by
  induction devs with
  | nil => intro ad n; simp [load_devices_adapters]
  | cons device rest ih =>
    intro ad n
    cases hdrv : device.driver with
    | none =>
      simp only [load_devices_adapters, hdrv]
      exact ih ad n
    | some d =>
      simp only [load_devices_adapters, hdrv]
      by_cases hc : d ≠ "" ∧ (pyDictFind ad d).isNone = true
      · rw [if_pos hc]
        cases ho : oracle n d with
        | some a =>
          simp only [ho]
          refine List.nodup_cons.mpr ⟨?_, ih _ _⟩
          exact load_adapters_not_invoked oracle rest _ _ d
            (by rw [pyDictFind_set_self]; rfl)
        | none => exact absurd (hsucc n d) (by rw [ho]; simp)
      · rw [if_neg hc]
        exact ih ad n

theorem load_adapters_covers {A : Type} (oracle : Nat → String → Option A)
    (hsucc : ∀ m s', (oracle m s').isSome = true) (devs : List DeviceDescription) :
    ∀ (ad : List (String × A)) (n : Nat), ∀ d ∈ devs, ∀ drv,
      d.driver = Option.some drv → drv ≠ "" →
      (pyDictFind (load_devices_adapters oracle devs ad n).1 drv).isSome = true := by
  induction devs with
  | nil => intro ad n d hd; cases hd
  | cons device rest ih =>
    intro ad n d hd drv hdrv hne
    rcases List.mem_cons.mp hd with rfl | hm
    · simp only [load_devices_adapters, hdrv]
      by_cases hc : drv ≠ "" ∧ (pyDictFind ad drv).isNone = true
      · rw [if_pos hc]
        cases ho : oracle n drv with
        | some a =>
          simp only [ho]
          exact load_adapters_mono oracle rest _ _ drv (by rw [pyDictFind_set_self]; rfl)
        | none => exact absurd (hsucc n drv) (by rw [ho]; simp)
      · rw [if_neg hc]
        have hsome : (pyDictFind ad drv).isSome = true := by
          rcases not_and_or.mp hc with h | h
          · exact absurd hne (by simpa using h)
          · cases hfind : pyDictFind ad drv with
            | none => exact absurd (by rw [hfind]; rfl) h
            | some _ => rfl
        exact load_adapters_mono oracle rest ad n drv hsome
    · cases hdd : device.driver with
      | none =>
        simp only [load_devices_adapters, hdd]
        exact ih ad n d hm drv hdrv hne
      | some dd =>
        simp only [load_devices_adapters, hdd]
        by_cases hc : dd ≠ "" ∧ (pyDictFind ad dd).isNone = true
        · rw [if_pos hc]
          cases ho : oracle n dd with
          | some a =>
            simp only [ho]
            exact ih _ _ d hm drv hdrv hne
          | none =>
            simp only [ho]
            exact ih _ _ d hm drv hdrv hne
        · rw [if_neg hc]
          exact ih ad n d hm drv hdrv hne

/-- Test fixture: an adapter oracle whose first invocation fails and all
later ones succeed. -/
def failFirstOracle : Nat → String → Option Unit :=
  fun n _ => if n = 0 then Option.none else Option.some ()

/-- Claim C9 (counterexample): a device-load pass over two devices sharing
one driver in which `get_adapter` is invoked twice for that driver — the
first fetch fails (the exception is caught and logged, nothing is cached),
so the second device triggers a second invocation. -/
theorem claim_C9_counterexample :
    (load_devices_adapters failFirstOracle [dimmerDevice, dimmerDevice2] [] 0).2 =
      ["dimmer", "dimmer"] := rfl

/-- Claim C9 (amended): a driver already cached is never fetched again;
when every fetch succeeds, each driver is passed to `get_adapter` at most
once per load pass (the invocation list has no duplicates) and every
device with a truthy driver ends up with its driver cached in the shared
adapters map; in particular two devices sharing one driver yield exactly
one invocation.  A failed fetch, however, is not cached and is retried on
the next device with that driver (see the counterexample). -/
theorem claim_C9 :
    (∀ (A : Type) (oracle : Nat → String → Option A) (devs : List DeviceDescription)
      (ad : List (String × A)) (n : Nat) (drv : String),
      (pyDictFind ad drv).isSome = true →
      drv ∉ (load_devices_adapters oracle devs ad n).2) ∧
    (∀ (A : Type) (oracle : Nat → String → Option A) (devs : List DeviceDescription)
      (ad : List (String × A)) (n : Nat),
      (∀ m s', (oracle m s').isSome = true) →
      List.Nodup (load_devices_adapters oracle devs ad n).2) ∧
    (∀ (A : Type) (oracle : Nat → String → Option A) (devs : List DeviceDescription)
      (ad : List (String × A)) (n : Nat),
      (∀ m s', (oracle m s').isSome = true) →
      ∀ d ∈ devs, ∀ drv, d.driver = Option.some drv → drv ≠ "" →
      (pyDictFind (load_devices_adapters oracle devs ad n).1 drv).isSome = true) ∧
    (load_devices_adapters (fun _ _ => Option.some ()) [dimmerDevice, dimmerDevice2]
        [] 0).2 = ["dimmer"] :=
  ⟨fun _ oracle devs ad n drv h => load_adapters_not_invoked oracle devs ad n drv h,
    fun _ oracle devs ad n hsucc => load_adapters_nodup oracle hsucc devs ad n,
    fun _ oracle devs ad n hsucc => load_adapters_covers oracle hsucc devs ad n,
    rfl⟩

/-- Claim C9 (witness): instantiates the caching discipline at the
two-device fixture with an always-successful oracle. -/
theorem claim_C9_witness :
    "dimmer" ∉ (load_devices_adapters (fun _ _ => Option.some ()) [dimmerDevice]
        [("dimmer", ())] 0).2 ∧
    List.Nodup (load_devices_adapters (fun _ _ => Option.some ())
        [dimmerDevice, dimmerDevice2] [] 0).2 ∧
    (pyDictFind (load_devices_adapters (fun _ _ => Option.some ()) [dimmerDevice] [] 0).1
        "dimmer").isSome = true :=
  ⟨claim_C9.1 Unit (fun _ _ => Option.some ()) [dimmerDevice] [("dimmer", ())] 0 "dimmer"
      rfl,
    claim_C9.2.1 Unit (fun _ _ => Option.some ()) [dimmerDevice, dimmerDevice2] [] 0
      (fun _ _ => rfl),
    claim_C9.2.2.1 Unit (fun _ _ => Option.some ()) [dimmerDevice] [] 0 (fun _ _ => rfl)
      dimmerDevice (by simp) "dimmer" rfl (by decide)⟩

/-- Claim C10: persisted-identity round trip.  For a 64-hex-character
private-key string whose value lies in the valid P-256 scalar range and a
canonically padded base64 user id encoding 32 bytes (all < 256),
constructing the auth object from the stored pair succeeds, and reading
`private_key_hex` returns the hex string lower-cased while `user_id_b64`
returns the base64 string unchanged. -/
theorem claim_C10 :
    ∀ (h : List Char) (b : List Nat),
      h.length = 64 → (∀ c ∈ h, (hexVal c).isSome = true) →
      0 < hexDigitsVal h → hexDigitsVal h < p256Order →
      b.length = 32 → (∀ x ∈ b, x < 256) →
      ∃ a : PushokAuthIdent,
        pushokAuthStored h (b64encode b) = Except.ok a ∧
        a.private_key_hex = h.map lowerChar ∧
        a.user_id_b64 = b64encode b := by
  intro h b hlen hhex hpos hord _hblen hb
  have hne : h ≠ [] := by
    intro hnil
    rw [hnil] at hlen
    cases hlen
  have hparse : parseHexNat h = Option.some (hexDigitsVal h) := by
    unfold parseHexNat
    rw [if_pos ⟨hne, by rw [List.all_eq_true]; exact fun c hc => hhex c hc⟩]
  refine ⟨⟨hexDigitsVal h, b64decode (b64encode b)⟩, ?_, ?_, ?_⟩
  · unfold pushokAuthStored load_private_key
    simp only [hparse]
    rw [if_pos ⟨hpos, hord⟩]
  · show natToHexFixed 64 (hexDigitsVal h) = h.map lowerChar
    rw [← hlen]
    exact natToHexFixed_hexDigitsVal h hhex
  · show b64encode (b64decode (b64encode b)) = b64encode b
    rw [b64decode_b64encode b hb]

/-- Claim C10 (witness): instantiates the round trip at the private key
`"00…0A1B"`-style string `63 × '0' ++ '1'` and the 32-zero-byte user id. -/
theorem claim_C10_witness :
    ∃ a : PushokAuthIdent,
      pushokAuthStored (List.replicate 63 '0' ++ ['1'])
          (b64encode (List.replicate 32 0)) = Except.ok a ∧
      a.private_key_hex = (List.replicate 63 '0' ++ ['1']).map lowerChar ∧
      a.user_id_b64 = b64encode (List.replicate 32 0) :=
  claim_C10 (List.replicate 63 '0' ++ ['1']) (List.replicate 32 0) (by decide) (by decide)
    (by decide) (by decide) (by decide) (by decide)
